import Mathlib

/-!
Verification of the design-pattern-visualizer repository.

Part 1: the pattern catalog (`src/lib/patterns/*.ts`, `src/lib/patterns/index.ts`).
The TypeScript `Pattern` interface also carries purely textual presentation fields
(description, intent, motivation, structure, participants, collaboration,
consequences, implementation, useCases, example, code); those fields are never
consulted by `getPatternById` / `getPatternsByCategory` nor by any claim, so the
embedding keeps the fields the queries and the cross-reference invariant read:
`id`, `name`, `category`, `relatedPatterns`.
-/

/-- `export type PatternCategory = "creational" | "structural" | "behavioral"` -/
inductive PatternCategory
  | creational
  | structural
  | behavioral
deriving DecidableEq, Repr

/-- The queried projection of the `Pattern` interface of `types/pattern.ts`. -/
structure Pattern where
  id : String
  name : String
  category : PatternCategory
  relatedPatterns : List String
deriving DecidableEq, Repr

/-- `creational.ts`: the Singleton record (queried fields). -/
def singletonPattern : Pattern :=
  { id := "singleton", name := "Singleton", category := .creational,
    relatedPatterns := ["factory-method", "abstract-factory", "prototype"] }

/-- `creational.ts`: the Factory Method record (queried fields). -/
def factoryMethodPattern : Pattern :=
  { id := "factory-method", name := "Factory Method", category := .creational,
    relatedPatterns := ["abstract-factory", "prototype", "singleton"] }

/-- `creational.ts`: the Builder record (queried fields). -/
def builderPattern : Pattern :=
  { id := "builder", name := "Builder", category := .creational,
    relatedPatterns := ["abstract-factory", "composite"] }

/-- `creational.ts`: the Abstract Factory record (queried fields). -/
def abstractFactoryPattern : Pattern :=
  { id := "abstract-factory", name := "Abstract Factory", category := .creational,
    relatedPatterns := ["factory-method", "singleton", "prototype"] }

/-- `creational.ts`: the Prototype record (queried fields). -/
def prototypePattern : Pattern :=
  { id := "prototype", name := "Prototype", category := .creational,
    relatedPatterns := ["abstract-factory", "composite", "decorator"] }

/-- `structural.ts`: the Decorator record (queried fields). -/
def decoratorPattern : Pattern :=
  { id := "decorator", name := "Decorator", category := .structural,
    relatedPatterns := ["adapter", "composite", "strategy"] }

/-- `structural.ts`: the Adapter record (queried fields). -/
def adapterPattern : Pattern :=
  { id := "adapter", name := "Adapter", category := .structural,
    relatedPatterns := ["decorator", "proxy"] }

/-- `structural.ts`: the Composite record (queried fields). -/
def compositePattern : Pattern :=
  { id := "composite", name := "Composite", category := .structural,
    relatedPatterns := ["decorator"] }

/-- `structural.ts`: the Facade record (queried fields). -/
def facadePattern : Pattern :=
  { id := "facade", name := "Facade", category := .structural,
    relatedPatterns := ["adapter", "abstract-factory"] }

/-- `structural.ts`: the Proxy record (queried fields). -/
def proxyPattern : Pattern :=
  { id := "proxy", name := "Proxy", category := .structural,
    relatedPatterns := ["adapter", "decorator"] }

/-- `behavioral.ts`: the Observer record (queried fields). -/
def observerPattern : Pattern :=
  { id := "observer", name := "Observer", category := .behavioral,
    relatedPatterns := ["singleton"] }

/-- `behavioral.ts`: the Strategy record (queried fields). -/
def strategyPattern : Pattern :=
  { id := "strategy", name := "Strategy", category := .behavioral,
    relatedPatterns := ["state"] }

/-- `behavioral.ts`: the Command record (queried fields). -/
def commandPattern : Pattern :=
  { id := "command", name := "Command", category := .behavioral,
    relatedPatterns := ["composite", "prototype"] }

/-- `behavioral.ts`: the State record (queried fields). -/
def statePattern : Pattern :=
  { id := "state", name := "State", category := .behavioral,
    relatedPatterns := ["strategy", "singleton"] }

/-- `export const creationalPatterns = [...]` of `creational.ts`, in source order. -/
def creationalPatterns : List Pattern :=
  [singletonPattern, factoryMethodPattern, builderPattern, abstractFactoryPattern,
   prototypePattern]

/-- `export const structuralPatterns = [...]` of `structural.ts`, in source order. -/
def structuralPatterns : List Pattern :=
  [decoratorPattern, adapterPattern, compositePattern, facadePattern, proxyPattern]

/-- `export const behavioralPatterns = [...]` of `behavioral.ts`, in source order. -/
def behavioralPatterns : List Pattern :=
  [observerPattern, strategyPattern, commandPattern, statePattern]

/-- `export const allPatterns = [...creationalPatterns, ...structuralPatterns,
...behavioralPatterns]` of `lib/patterns/index.ts`. -/
def allPatterns : List Pattern :=
  creationalPatterns ++ structuralPatterns ++ behavioralPatterns

/-- `getPatternById(id)` of `lib/patterns/index.ts`:
`allPatterns.find((pattern) => pattern.id === id)`. -/
def getPatternById (i : String) : Option Pattern :=
  allPatterns.find? (fun pat => pat.id == i)

/-- `getPatternsByCategory(category)` of `lib/patterns/index.ts`:
`allPatterns.filter((pattern) => pattern.category === category)`. -/
def getPatternsByCategory (category : PatternCategory) : List Pattern :=
  allPatterns.filter (fun pat => pat.category == category)

example : getPatternById "singleton" = some singletonPattern := by decide
example : getPatternById "zzz" = none := by decide
example :
    allPatterns.all (fun p => p.relatedPatterns.all (fun r => (getPatternById r).isSome))
      = true := by decide

/-!
Part 2: the execution sandbox (`lib/code-execution/sandbox.ts`, class `CodeSandbox`).

The sandbox wraps a synchronous `eval(code)` call in a promise, after installing
capture closures over `console.log` / `console.error` / `console.warn` and arming
a 5000 ms `setTimeout`. The embedding models:
  - the value a captured console argument can be, as the observable features
    `sanitizeOutput` branches on (`typeof value === "string"`, non-null object
    with its `JSON.stringify(value, null, 2)` result when that call succeeds and
    its `String(value)` rendering, and every other value by its `String(value)`
    rendering);
  - the behaviour of one `eval(code)` run, as the sequence of console calls it
    makes followed by how it ends (returns, throws an `Error` with a message,
    throws a non-`Error` value, or never returns);
  - the JavaScript event loop by its run-to-completion rule: a callback queued by
    `setTimeout` runs only after the currently running task has yielded, so a
    synchronous task that never returns blocks every queued callback forever, and
    each `resolve(...)` call is recorded so that single settlement is a theorem,
    not an assumption.
-/

/-- A binding that can sit in a `console` slot: `external i` is any binding
installed outside the sandbox (the originals saved at entry), the three capture
constructors are the closures `CodeSandbox.execute` installs. -/
inductive ConsoleBinding
  | external (i : Nat)
  | captureLog
  | captureError
  | captureWarn
deriving DecidableEq, Repr

/-- The three mutable `console` slots the sandbox saves, overrides and restores. -/
structure ConsoleState where
  log : ConsoleBinding
  error : ConsoleBinding
  warn : ConsoleBinding
deriving DecidableEq, Repr

/-- A JavaScript value as observed by `CodeSandbox.sanitizeOutput`: a string, a
non-null object (carrying the result of `JSON.stringify(value, null, 2)` when that
call succeeds, `none` when it throws, plus its `String(value)` rendering), or any
other value by its `String(value)` rendering. -/
inductive JSValue
  | str (s : String)
  | obj (json : Option String) (toStr : String)
  | prim (toStr : String)
deriving DecidableEq, Repr

/-- Global single-character replacement, the effect of
`String.prototype.replace(/c/g, rep)` for a one-character pattern `c`. -/
def replaceChar (c : Char) (rep : String) (s : String) : String :=
  String.join (s.toList.map (fun ch => if ch = c then rep else String.singleton ch))

/-- The string branch of `CodeSandbox.sanitizeOutput`: the five chained
`replace` calls, in source order `<`, `>`, `"`, `'`, `/`. -/
def sanitizeString (v : String) : String :=
  replaceChar '/' "&#x2F;"
    (replaceChar '\x27' "&#x27;"
      (replaceChar '"' "&quot;"
        (replaceChar '>' "&gt;"
          (replaceChar '<' "&lt;" v))))

/-- `CodeSandbox.sanitizeOutput(value)`: escape strings; render non-null objects
via `JSON.stringify(value, null, 2)`, falling back to `String(value)` when the
serialization throws; render everything else via `String(value)`. -/
def sanitizeOutput : JSValue → String
  | .str s => sanitizeString s
  | .obj (some j) _ => j
  | .obj none toStr => toStr
  | .prim toStr => toStr

/-- One console-style call made by the executed code. -/
inductive ConsoleCall
  | log (args : List JSValue)
  | error (args : List JSValue)
  | warn (args : List JSValue)
deriving DecidableEq, Repr

/-- The line the installed capture closures push onto `logs` for one call:
`args.map((arg) => this.sanitizeOutput(arg)).join(" ")`, with the `"ERROR: "` and
`"WARNING: "` prefixes of the `console.error` / `console.warn` overrides. -/
def captureLine : ConsoleCall → String
  | .log args => String.intercalate " " (args.map sanitizeOutput)
  | .error args => "ERROR: " ++ String.intercalate " " (args.map sanitizeOutput)
  | .warn args => "WARNING: " ++ String.intercalate " " (args.map sanitizeOutput)

/-- How one synchronous `eval(code)` run ends: normal return, an `Error` thrown
with message `msg`, a non-`Error` value thrown whose `String(value)` is `s`, or
no return at all (an infinite loop). -/
inductive EvalOutcome
  | ret
  | throwErr (msg : String)
  | throwOther (s : String)
  | diverge
deriving DecidableEq, Repr

/-- The observable behaviour of `eval(code)` for one source string: the console
calls it makes, in order, and how it ends. -/
structure CodeBehavior where
  calls : List ConsoleCall
  outcome : EvalOutcome
deriving DecidableEq, Repr

/-- `interface ExecutionResult { output: string[]; error?: string }`. -/
structure ExecutionResult where
  output : List String
  error : Option String := none
deriving DecidableEq, Repr

/-- The static fields of `CodeSandbox` together with the `console` slots the
sandbox mutates: `lastExecution` (ms timestamp, initially 0) and the console. -/
structure SandboxState where
  lastExecution : Int
  console : ConsoleState
deriving DecidableEq, Repr

/-- `EXECUTION_TIMEOUT = 5000` (ms). -/
def EXECUTION_TIMEOUT : Int := 5000

/-- `MIN_EXECUTION_INTERVAL = 1000` (ms). -/
def MIN_EXECUTION_INTERVAL : Int := 1000

/-- The rate-limit error message of `CodeSandbox.execute`. -/
def rateLimitErrorMsg : String :=
  "Please wait before running code again (rate limit: 1 execution per second)"

/-- The timeout error message of the `setTimeout` callback. -/
def timeoutErrorMsg : String :=
  "Execution timeout: Code took longer than 5 seconds to execute"

/-- `CodeSandbox.checkRateLimit()`: reject when `now - lastExecution <
MIN_EXECUTION_INTERVAL`, otherwise record `now` and accept. -/
def checkRateLimit (st : SandboxState) (now : Int) : Bool × SandboxState :=
  if now - st.lastExecution < MIN_EXECUTION_INTERVAL then (false, st)
  else (true, { st with lastExecution := now })

/-- The state of the promise executor task: the `completed` flag, whether the
5000 ms timer is still pending (armed and not cleared), the current `console`
slots, the captured `logs`, and every `resolve(...)` call made so far, in order. -/
structure TaskState where
  completed : Bool
  timerArmed : Bool
  console : ConsoleState
  logs : List String
  resolutions : List ExecutionResult
deriving DecidableEq, Repr

/-- The success site (lines 112-119 of the sandbox): under `if (!completed)`,
set `completed`, clear the timer, restore the three console slots and resolve
with `{ output: logs }`. -/
def successSite (originals : ConsoleState) (s : TaskState) : TaskState :=
  if s.completed then s
  else { s with completed := true, timerArmed := false, console := originals,
                resolutions := s.resolutions ++ [{ output := s.logs }] }

/-- The catch site (lines 120-132): under `if (!completed)`, set `completed`,
clear the timer, restore the console and resolve with the captured output and
`` `Error: ${error instanceof Error ? error.message : String(error)}` ``;
`emsg` is the already-selected message text. -/
def errorSite (originals : ConsoleState) (emsg : String) (s : TaskState) : TaskState :=
  if s.completed then s
  else { s with completed := true, timerArmed := false, console := originals,
                resolutions := s.resolutions ++
                  [{ output := s.logs, error := some ("Error: " ++ emsg) }] }

/-- The `setTimeout` callback (lines 79-90): under `if (!completed)`, set
`completed`, restore the console and resolve with the captured output and the
timeout error message. Firing consumes the timer. -/
def timeoutSite (originals : ConsoleState) (s : TaskState) : TaskState :=
  if s.completed then { s with timerArmed := false }
  else { s with completed := true, timerArmed := false, console := originals,
                resolutions := s.resolutions ++
                  [{ output := s.logs, error := some timeoutErrorMsg }] }

/-- Whether the synchronous executor task yielded control back to the event loop
with state `s`, or blocked forever in `eval` with the state it had reached. -/
inductive TaskRun
  | yielded (s : TaskState)
  | blocked (s : TaskState)
deriving DecidableEq, Repr

/-- The synchronous task of an accepted `execute` call: the capture closures are
installed over the console, the timer is armed, `eval(code)` runs and pushes one
`captureLine` per console call onto `logs`, then the outcome selects the success
site, the catch site, or — for code that never returns — no site at all: the task
blocks and never yields. -/
def runMainTask (originals : ConsoleState) (beh : CodeBehavior) : TaskRun :=
  let s0 : TaskState :=
    { completed := false, timerArmed := true,
      console := { log := .captureLog, error := .captureError, warn := .captureWarn },
      logs := beh.calls.map captureLine, resolutions := [] }
  match beh.outcome with
  | .ret => .yielded (successSite originals s0)
  | .throwErr msg => .yielded (errorSite originals msg s0)
  | .throwOther s => .yielded (errorSite originals s s0)
  | .diverge => .blocked s0

/-- JavaScript run-to-completion: the `setTimeout` callback runs (at 5000 ms)
only once the executor task has yielded and only if the timer was not cleared;
a blocked task never yields, so no queued callback ever runs. -/
def runEventLoop (originals : ConsoleState) (beh : CodeBehavior) : TaskState :=
  match runMainTask originals beh with
  | .blocked s => s
  | .yielded s => if s.timerArmed then timeoutSite originals s else s

/-- `CodeSandbox.execute(code)`, returning the final sandbox state and every
`resolve` call (equivalently, every result delivery) the call performs; the
rate-limited early return delivers its error result directly. -/
def executeResolutions (st : SandboxState) (now : Int) (beh : CodeBehavior) :
    SandboxState × List ExecutionResult :=
  match checkRateLimit st now with
  | (false, st1) => (st1, [{ output := [], error := some rateLimitErrorMsg }])
  | (true, st1) =>
    let fin := runEventLoop st1.console beh
    ({ st1 with console := fin.console }, fin.resolutions)

/-- `CodeSandbox.execute(code)` as observed by the caller awaiting the promise:
the settled result is the first delivery; `none` means the promise never
settles (the call hangs). -/
def execute (st : SandboxState) (now : Int) (beh : CodeBehavior) :
    SandboxState × Option ExecutionResult :=
  let r := executeResolutions st now beh
  (r.1, r.2.head?)

/-- A concrete pre-call console, three bindings installed by the host page. -/
def extConsole : ConsoleState :=
  { log := .external 0, error := .external 1, warn := .external 2 }

example :
    (execute { lastExecution := 0, console := extConsole } 2000
      { calls := [.log [.str "<script>"]], outcome := .ret }).2
      = some { output := ["&lt;script&gt;"] } := by decide
example :
    (execute { lastExecution := 0, console := extConsole } 2000
      { calls := [], outcome := .diverge }).2 = none := by decide
example :
    (execute { lastExecution := 1500, console := extConsole } 2000
      { calls := [], outcome := .ret }).2
      = some { output := [], error := some rateLimitErrorMsg } := by decide

/-!
Part 3: the claims.
-/

/-- C5: for every pattern record in the catalog and every identifier in that
record's relatedPatterns list, getPatternById applied to that identifier returns
an existing pattern record. -/
theorem relatedPatterns_resolve (p : Pattern) (hp : p ∈ allPatterns)
    (r : String) (hr : r ∈ p.relatedPatterns) :
    ∃ q, getPatternById r = some q := by
  have hall : allPatterns.all
      (fun p => p.relatedPatterns.all (fun r => (getPatternById r).isSome)) = true := by
    decide
  rw [List.all_eq_true] at hall
  have h1 := hall p hp
  rw [List.all_eq_true] at h1
  exact Option.isSome_iff_exists.mp (h1 r hr)

/-- Witness for C5: the Singleton record is in the catalog, "factory-method" is in
its relatedPatterns list, and the lookup succeeds. -/
theorem relatedPatterns_resolve_witness :
    ∃ q, getPatternById "factory-method" = some q :=
  relatedPatterns_resolve singletonPattern (by decide) "factory-method" (by decide)

/-- C7: for every identifier of a record present in the catalog, getPatternById
returns a record whose id equals the queried identifier; for every identifier not
present, it returns none (and, being a total function, it never throws). -/
theorem getPatternById_found_or_none (i : String) :
    ((∃ p, p ∈ allPatterns ∧ p.id = i) → ∃ q, getPatternById i = some q ∧ q.id = i)
    ∧ ((∀ p, p ∈ allPatterns → p.id ≠ i) → getPatternById i = none) := by
  constructor
  · rintro ⟨p, hp, hid⟩
    have hsome : (allPatterns.find? (fun pat => pat.id == i)).isSome := by
      rw [List.find?_isSome]
      exact ⟨p, hp, by simp [hid]⟩
    obtain ⟨q, hq⟩ := Option.isSome_iff_exists.mp hsome
    refine ⟨q, hq, ?_⟩
    have := List.find?_some hq
    simpa using this
  · intro h
    unfold getPatternById
    rw [List.find?_eq_none]
    intro p hp
    simp [h p hp]

/-- Witness for C7: the lookup for "singleton" returns a record with that id, and
the lookup for an identifier absent from the catalog returns none. -/
theorem getPatternById_found_or_none_witness :
    (∃ q, getPatternById "singleton" = some q ∧ q.id = "singleton")
      ∧ getPatternById "no-such-pattern" = none :=
  ⟨(getPatternById_found_or_none "singleton").1 ⟨singletonPattern, by decide, rfl⟩,
   (getPatternById_found_or_none "no-such-pattern").2 (by decide)⟩

/-- C8: getPatternsByCategory partitions the catalog exactly: the concatenation of
its results over creational, structural and behavioral equals the full catalog (no
record duplicated or omitted, since the catalog itself has no duplicate record),
and each result is a sublist of the catalog, hence preserves insertion order. -/
theorem getPatternsByCategory_partition :
    (getPatternsByCategory .creational ++ getPatternsByCategory .structural
        ++ getPatternsByCategory .behavioral = allPatterns)
    ∧ (∀ c : PatternCategory, List.Sublist (getPatternsByCategory c) allPatterns)
    ∧ allPatterns.Nodup :=
  ⟨by decide, fun c => List.filter_sublist allPatterns, by decide⟩

/-- C2: a call arriving less than 1000 ms after the previous accepted execution is
rejected with the rate-limit error result and an empty output list, and the whole
sandbox state — in particular the stored lastExecution timestamp — is unchanged. -/
theorem rate_limit_rejects (st : SandboxState) (now : Int) (beh : CodeBehavior)
    (h : now - st.lastExecution < MIN_EXECUTION_INTERVAL) :
    execute st now beh
      = (st, some { output := [], error := some rateLimitErrorMsg }) := by
  simp [execute, executeResolutions, checkRateLimit, h]

/-- Witness for C2: a call 500 ms after the previous accepted one is rejected and
leaves the state unchanged. -/
theorem rate_limit_rejects_witness :
    execute { lastExecution := 1500, console := extConsole } 2000
        { calls := [], outcome := .ret }
      = ({ lastExecution := 1500, console := extConsole },
         some { output := [], error := some rateLimitErrorMsg }) :=
  rate_limit_rejects _ _ _ (by decide)

/-- C3, counterexample: an accepted execution throwing an Error with message
"boom" resolves with error field "Error: boom", which is not the message text
itself — the field is the message prefixed, not the message verbatim. -/
theorem thrown_message_prefixed_not_verbatim :
    ((execute { lastExecution := 0, console := extConsole } 2000
        { calls := [], outcome := .throwErr "boom" }).2
      = some { output := [], error := some "Error: boom" })
    ∧ "Error: boom" ≠ "boom" := by
  exact ⟨by decide, by decide⟩

/-- C3, amended: an accepted execution whose code throws an Error with message
msg resolves (never raises) with the output captured before the fault and error
field "Error: " ++ msg, which contains the message text verbatim. -/
theorem thrown_error_caught (st : SandboxState) (now : Int)
    (calls : List ConsoleCall) (msg : String)
    (h : ¬ now - st.lastExecution < MIN_EXECUTION_INTERVAL) :
    (execute st now { calls := calls, outcome := .throwErr msg }).2
      = some { output := calls.map captureLine, error := some ("Error: " ++ msg) } := by
  simp [execute, executeResolutions, checkRateLimit, h, runEventLoop, runMainTask,
        errorSite]

/-- Witness for C3: code that logs "a" then throws Error "boom" resolves with the
captured line and error field "Error: boom". -/
theorem thrown_error_caught_witness :
    (execute { lastExecution := 0, console := extConsole } 5000
        { calls := [.log [.str "a"]], outcome := .throwErr "boom" }).2
      = some { output := ["a"], error := some "Error: boom" } := by
  rw [thrown_error_caught _ _ _ _ (by decide)]
  decide

/-- C4: for an accepted execution the stored output is the capture of each
console call, string arguments pass through the five-entity escape chain, and
logging the string of a script tag stores a line equal to its escaped form, which
contains the escaped text and does not contain the raw tag as a substring. -/
theorem console_strings_sanitized (st : SandboxState) (now : Int)
    (calls : List ConsoleCall)
    (h : ¬ now - st.lastExecution < MIN_EXECUTION_INTERVAL) :
    ((execute st now { calls := calls, outcome := .ret }).2
        = some { output := calls.map captureLine })
    ∧ (∀ s : String, sanitizeOutput (.str s) = sanitizeString s)
    ∧ ((execute { lastExecution := 0, console := extConsole } 2000
          { calls := [.log [.str "<script>"]], outcome := .ret }).2
        = some { output := ["&lt;script&gt;"] })
    ∧ List.IsInfix "&lt;script&gt;".toList "&lt;script&gt;".toList
    ∧ ¬ List.IsInfix "<script>".toList "&lt;script&gt;".toList := by
  refine ⟨?_, fun s => rfl, by decide, by decide, by decide⟩
  simp [execute, executeResolutions, checkRateLimit, h, runEventLoop, runMainTask,
        successSite]

/-- Witness for C4: an accepted call logging a warning with the string "x" stores
exactly the prefixed, sanitized line. -/
theorem console_strings_sanitized_witness :
    (execute { lastExecution := 0, console := extConsole } 3000
        { calls := [.warn [.str "x"]], outcome := .ret }).2
      = some { output := ["WARNING: x"] } := by
  rw [(console_strings_sanitized { lastExecution := 0, console := extConsole } 3000
        [.warn [.str "x"]] (by decide)).1]
  decide

/-- C10: sanitizeOutput leaves non-null object values unescaped — it returns the
JSON serialization when it exists and the generic string rendering otherwise —
so an object whose serialization contains a raw script tag reaches the stored
output with that tag intact. -/
theorem object_values_unescaped :
    (∀ j t : String, sanitizeOutput (.obj (some j) t) = j)
    ∧ (∀ t : String, sanitizeOutput (.obj none t) = t)
    ∧ ((execute { lastExecution := 0, console := extConsole } 2000
          { calls := [.log [.obj (some "[\n  \"<script>\"\n]") "[object Object]"]],
            outcome := .ret }).2
        = some { output := ["[\n  \"<script>\"\n]"] })
    ∧ List.IsInfix "<script>".toList "[\n  \"<script>\"\n]".toList :=
  ⟨fun j t => rfl, fun t => rfl, by decide, by decide⟩

/-- C9: whenever an execute call settles (on any terminal path: rejected,
completed, errored or timed out), the console slots in the final state equal the
bindings saved at entry. -/
theorem console_restored (st : SandboxState) (now : Int) (beh : CodeBehavior)
    (h : ((execute st now beh).2).isSome) :
    ((execute st now beh).1).console = st.console := by
  obtain ⟨calls, outcome⟩ := beh
  by_cases hr : now - st.lastExecution < MIN_EXECUTION_INTERVAL
  · simp [execute, executeResolutions, checkRateLimit, hr]
  · cases outcome <;>
      simp [execute, executeResolutions, checkRateLimit, hr, runEventLoop,
            runMainTask, successSite, errorSite, timeoutSite] at h ⊢

/-- Witness for C9: a settled run leaves the host console bindings in place. -/
theorem console_restored_witness :
    ((execute { lastExecution := 0, console := extConsole } 2000
        { calls := [.log [.str "hi"]], outcome := .ret }).1).console = extConsole :=
  console_restored _ _ _ (by decide)

/-- C1 (the code defect): an accepted call whose eval never returns blocks the
single JavaScript thread, so the queued setTimeout callback never runs and the
promise never settles — instead of resolving by 5000 ms with a timeout error,
execute hangs on an infinite loop. -/
theorem infinite_loop_hangs :
    (execute { lastExecution := 0, console := extConsole } 100000
        { calls := [], outcome := .diverge }).2 = none := by decide

/-- C6, counterexample: an accepted call that logs once and then loops forever
performs zero result deliveries, not exactly one. -/
theorem diverging_call_delivers_no_result :
    ((executeResolutions { lastExecution := 0, console := extConsole } 2000
        { calls := [.log [.str "hi"]], outcome := .diverge }).2 = [])
    ∧ ([] : List ExecutionResult).length ≠ 1 := by decide

/-- C6, amended: every accepted request delivers at most one result, and exactly
one whenever eval terminates: a success carrying only the captured output (error
field absent exactly on normal return) or a failure carrying the output captured
so far plus an error string. -/
theorem at_most_one_result (st : SandboxState) (now : Int) (beh : CodeBehavior)
    (h : ¬ now - st.lastExecution < MIN_EXECUTION_INTERVAL) :
    ((executeResolutions st now beh).2.length ≤ 1)
    ∧ (beh.outcome ≠ .diverge →
        ∃ r, (executeResolutions st now beh).2 = [r]
          ∧ r.output = beh.calls.map captureLine
          ∧ (r.error = none ↔ beh.outcome = .ret)) := by
  obtain ⟨calls, outcome⟩ := beh
  cases outcome <;>
    simp [executeResolutions, checkRateLimit, h, runEventLoop, runMainTask,
          successSite, errorSite]

/-- Witness for C6: an accepted call with terminating code delivers exactly one
result of the success shape. -/
theorem at_most_one_result_witness :
    ∃ r, (executeResolutions { lastExecution := 0, console := extConsole } 2000
        { calls := [], outcome := .ret }).2 = [r]
      ∧ r.output = ([] : List ConsoleCall).map captureLine
      ∧ (r.error = none ↔ EvalOutcome.ret = EvalOutcome.ret) :=
  (at_most_one_result { lastExecution := 0, console := extConsole } 2000
      { calls := [], outcome := .ret } (by decide)).2 (by decide)
